import Mathlib

set_option maxRecDepth 100000

/-!
Verification of the HumeAI agent service
(`src/HumeAiTwilio/hume_agent_service.py`): the system-prompt composer
`_build_system_prompt`, the HTTP client operations `create_agent` and
`update_agent`.  Python runtime values that flow through the duck-typed
agent object are modelled by `PyVal`; the outbound HTTP transport is
modelled by a scripted list of responses, and each client operation
additionally returns the list of request payloads it issued.
-/

/-- A Python value as it can appear in the agent object's optional fields:
`None`, a string, a list, or a dict with string keys. -/
inductive PyVal where
  | none
  | str (s : String)
  | list (xs : List PyVal)
  | dict (kvs : List (String × PyVal))

/-- Python truthiness for the values of `PyVal`: `None` is falsy, a string is
truthy iff non-empty, a list or dict is truthy iff non-empty. -/
def pyTruthy : PyVal → Bool
  | .none => false
  | .str s => decide (s ≠ "")
  | .list xs => !xs.isEmpty
  | .dict kvs => !kvs.isEmpty

/-- Is this `PyVal` a Python `str`? -/
def isStr : PyVal → Bool
  | .str _ => true
  | _ => false

mutual

/-- Python `repr` of a value (string model: quotes around strings, square
brackets around lists, braces around dicts). -/
def pyRepr : PyVal → String
  | .none => "None"
  | .str s => "\x27" ++ s ++ "\x27"
  | .list xs => "[" ++ pyReprList xs ++ "]"
  | .dict kvs => "\x7b" ++ pyReprDict kvs ++ "\x7d"

/-- Comma-separated `repr`s of the elements of a list. -/
def pyReprList : List PyVal → String
  | [] => ""
  | [v] => pyRepr v
  | v :: rest => pyRepr v ++ ", " ++ pyReprList rest

/-- Comma-separated `repr`s of the entries of a dict. -/
def pyReprDict : List (String × PyVal) → String
  | [] => ""
  | [kv] => "\x27" ++ kv.1 ++ "\x27: " ++ pyRepr kv.2
  | kv :: rest => "\x27" ++ kv.1 ++ "\x27: " ++ pyRepr kv.2 ++ ", " ++ pyReprDict rest

end

/-- Python `str()` of a value: a string is itself, everything else renders
via `repr` (`str(None) = "None"`). -/
def pyStr : PyVal → String
  | .str s => s
  | v => pyRepr v

/-- Python `"lit" + v`: string concatenation, a `TypeError` unless `v` is a
`str` (source line 184 `"\n" + agent_obj.sales_script_text`). -/
def pyAddStr (s : String) (v : PyVal) : Except Unit String :=
  match v with
  | .str t => .ok (s ++ t)
  | _ => .error ()

/-- Python `str.upper()` on the string itself, character-wise (ASCII model
via `Char.toUpper`). -/
def strUpper (s : String) : String := ⟨s.data.map Char.toUpper⟩

/-- Python `str.replace('_', ' ')`: the pattern is a single character, so
this is a character-wise substitution. -/
def underscoreToSpace (s : String) : String :=
  ⟨s.data.map (fun c => if c = '_' then ' ' else c)⟩

/-- Python `v.upper()`: an `AttributeError` unless `v` is a `str` (source
line 190 `company_name.upper()`). -/
def pyUpper (v : PyVal) : Except Unit String :=
  match v with
  | .str s => .ok (strUpper s)
  | _ => .error ()

/-- Python `dict.get(k, d)`: the value stored at the first matching key,
or the default `d` when the key is absent. -/
def dictGetD (kvs : List (String × PyVal)) (k : String) (d : PyVal) : PyVal :=
  match kvs with
  | [] => d
  | (k', v) :: rest => if k' = k then v else dictGetD rest k d

/-- Python `"\n".join`, first phase: every element must be a `str`, else a
`TypeError`. -/
def getStrs : List PyVal → Except Unit (List String)
  | [] => .ok []
  | .str s :: rest =>
    match getStrs rest with
    | .ok ss => .ok (s :: ss)
    | .error e => .error e
  | _ :: _ => .error ()

/-- Python `"\n".join` on a list of strings. -/
def joinParts : List String → String
  | [] => ""
  | [s] => s
  | s :: rest => s ++ "\n" ++ joinParts rest

/-- Python `"\n".join(prompt_parts)` on the accumulated parts list
(source line 271). -/
def joinPartsPy (ps : List PyVal) : Except Unit String :=
  match getStrs ps with
  | .ok ss => .ok (joinParts ss)
  | .error e => .error e

/-- The agent object read from the database (duck-typed attributes used by
`_build_system_prompt`).  The source also computes an `agent_name`
(lines 156, 161-162) that is never used afterwards; it is omitted here. -/
structure AgentObj where
  name : PyVal
  sales_script_text : PyVal
  business_info : PyVal
  knowledge_files : PyVal

/-- The 47-character banner line used between sections. -/
def bar : String := "━━━━━━━━━━━━━━━━━━━━━━━━━━━━━━━━━━━━━━━━━━━━━━━"

/-- Source lines 155, 158-159: `company_name` starts as `"our company"` and
is replaced by `business_info.get('company_name', company_name)` when
`business_info` is a truthy dict. -/
def computeCompanyName (bi : PyVal) : PyVal :=
  match bi with
  | .dict kvs =>
    if pyTruthy (.dict kvs) then dictGetD kvs "company_name" (.str "our company")
    else .str "our company"
  | _ => .str "our company"

/-- Source line 167: the header line of the composed prompt. -/
def headerLine (cn : String) : String :=
  "You are a professional AI sales agent calling from " ++ cn ++ "."

/-- Source lines 169-172: the optional COMPANY description part. -/
def bizDescParts (cn : PyVal) (bi : PyVal) : List PyVal :=
  match bi with
  | .dict kvs =>
    if pyTruthy (.dict kvs) then
      let d := dictGetD kvs "business_description" .none
      if pyTruthy d then [.str ("\nCOMPANY: " ++ pyStr cn ++ " - " ++ pyStr d)] else []
    else []
  | _ => []

/-- Source lines 177-183: the fixed preamble of the CALL SCRIPT section. -/
def scriptPreludeParts : List String :=
  [ "\n\n" ++ bar,
    "CALL SCRIPT - NATURAL CONVERSATION FLOW:",
    bar,
    "\nHOW TO USE THIS SCRIPT:",
    "• If customer LISTENS silently → Continue step-by-step",
    "• If customer INTERRUPTS → Respond to their question/comment",
    "• After answering → Continue where you left off in the script" ]

/-- Source lines 175-184: the CALL SCRIPT section, present iff
`sales_script_text` is truthy; ends with `"\n" + sales_script_text`,
which is a `TypeError` when the field is truthy but not a string. -/
def scriptSection (s : PyVal) : Except Unit (List PyVal) :=
  if pyTruthy s then
    match pyAddStr "\n" s with
    | .ok t => .ok (scriptPreludeParts.map PyVal.str ++ [.str t])
    | .error e => .error e
  else .ok []

/-- Source lines 197-198: the optional Website line. -/
def websiteParts (kvs : List (String × PyVal)) : List PyVal :=
  let w := dictGetD kvs "company_website" .none
  if pyTruthy w then [.str ("\nWebsite: " ++ pyStr w)] else []

/-- Source lines 200-201: the optional Industry line. -/
def industryParts (kvs : List (String × PyVal)) : List PyVal :=
  let v := dictGetD kvs "industry" .none
  if pyTruthy v then [.str ("Industry: " ++ pyStr v)] else []

/-- Source lines 204-211: the optional PRODUCT FEATURES block — bulleted
when the value is a list, verbatim when it is a string, header only
otherwise. -/
def featureParts (kvs : List (String × PyVal)) : List PyVal :=
  let f := dictGetD kvs "product_features" .none
  if pyTruthy f then
    .str "\nPRODUCT FEATURES:" ::
      (match f with
       | .list xs => xs.map (fun x => .str ("• " ++ pyStr x))
       | .str s => [.str s]
       | _ => [])
  else []

/-- Source lines 214-216: the optional PRICING block.  The value is
appended raw (not stringified), so a truthy non-string value later makes
`"\n".join` fail. -/
def pricingParts (kvs : List (String × PyVal)) : List PyVal :=
  let p := dictGetD kvs "pricing_info" .none
  if pyTruthy p then [.str "\nPRICING:", p] else []

/-- Source lines 219-221: the optional TARGET CUSTOMERS block; the value is
appended raw, as for pricing. -/
def targetParts (kvs : List (String × PyVal)) : List PyVal :=
  let t := dictGetD kvs "target_customers" .none
  if pyTruthy t then [.str "\nTARGET CUSTOMERS:", t] else []

/-- Source lines 194-221: the business-info contents of the knowledge base,
in the source's fixed order. -/
def kbBizParts (bi : PyVal) : List PyVal :=
  match bi with
  | .dict kvs =>
    if pyTruthy (.dict kvs) then
      websiteParts kvs ++ industryParts kvs ++ featureParts kvs
        ++ pricingParts kvs ++ targetParts kvs
    else []
  | _ => []

/-- Source lines 225-228: one `knowledge_files` entry — skipped when its
value is falsy, otherwise an upper-cased underscore-to-space label line
followed by `str(value)`. -/
def kbFileEntry (kv : String × PyVal) : List PyVal :=
  if pyTruthy kv.2 then
    [.str ("\n" ++ underscoreToSpace (strUpper kv.1) ++ ":"), .str (pyStr kv.2)]
  else []

/-- Source lines 224-228: the `knowledge_files` contents of the knowledge
base. -/
def kbFileParts (kf : PyVal) : List PyVal :=
  match kf with
  | .dict kvs => if pyTruthy (.dict kvs) then kvs.flatMap kbFileEntry else []
  | _ => []

/-- Source lines 186-228: the KNOWLEDGE BASE section, present iff
`knowledge_files` or `business_info` is truthy; its heading upper-cases
`company_name`, which is an `AttributeError` when that is not a string. -/
def kbSection (cn : PyVal) (bi : PyVal) (kf : PyVal) : Except Unit (List PyVal) :=
  if pyTruthy kf || pyTruthy bi then
    match pyUpper cn with
    | .ok up =>
      .ok ([.str ("\n\n" ++ bar), .str (up ++ " KNOWLEDGE BASE:"), .str bar]
            ++ kbBizParts bi ++ kbFileParts kf)
    | .error e => .error e
  else .ok []

/-- Source lines 231-243: the fixed INTELLIGENT QUESTION HANDLING block
(interpolates the company name twice). -/
def qhParts (cn : String) : List String :=
  [ "\n\n" ++ bar,
    "INTELLIGENT QUESTION HANDLING:",
    bar,
    "\nWHEN CUSTOMER ASKS QUESTIONS:",
    "1. Search knowledge base above for relevant information",
    "2. Answer in 1-2 sentences maximum",
    "3. After answering, RETURN to script where you left off",
    "\nEXAMPLES:",
    "• \"Can you hear me?\" → \"Yes, I can hear you perfectly. Let me continue...\"",
    "• \"How are you?\" → \"I\x27m great, thanks! Let me tell you about " ++ cn ++ "...\"",
    "• Technical question → Answer from knowledge base + continue script",
    "• Off-topic → \"Let me connect you with someone for that. Now, about " ++ cn ++ "...\"",
    "\nGOLDEN RULE: Always bring conversation back to sales call after answering questions!" ]

/-- Source lines 246-269: the fixed CRITICAL RESPONSE RULES block
(interpolates the company name once). -/
def crParts (cn : String) : List String :=
  [ "\n\n" ++ bar,
    "CRITICAL RESPONSE RULES:",
    bar,
    "\n1. Maximum 2 sentences per response - NO EXCEPTIONS",
    "2. Use exact script wording for main call flow",
    "3. For questions: Search knowledge base → Answer briefly → Return to script",
    "4. No filler words: \x27um\x27, \x27uh\x27, \x27like\x27, \x27you know\x27, \x27hmm\x27, \x27well\x27",
    "5. Be direct and professional",
    "6. Answer ANY question about " ++ cn ++ " using knowledge base",
    "7. For unrelated questions: Brief answer → Redirect to sales call",
    "8. Never make up information not in knowledge base",
    "9. Always return to script after answering questions",
    "10. Keep moving toward demo booking goal",
    "\nFORBIDDEN BEHAVIORS:",
    "❌ Long responses (>2 sentences)",
    "❌ Completely ignoring customer questions",
    "❌ Saying \x27I don\x27t know\x27 when info is in knowledge base",
    "❌ Changing script wording",
    "❌ Uncertain phrases (\x27I think\x27, \x27maybe\x27, \x27probably\x27)",
    "❌ Getting stuck on off-topic discussion",
    "❌ Forgetting to return to script after answering",
    "\nTONE: Professional, confident, clear, helpful",
    "STYLE: Sales call with intelligent question handling",
    "GOAL: Answer questions intelligently, deliver script, book demo" ]

/-- The body of the `try` block of `_build_system_prompt`
(source lines 154-276) for a present agent object: assembles the parts
list in source order and joins it with newlines; `.error` marks any point
where the Python code would raise. -/
def buildCore (a : AgentObj) : Except Unit String :=
  let company_name := computeCompanyName a.business_info
  match scriptSection a.sales_script_text with
  | .error e => .error e
  | .ok sParts =>
    match kbSection company_name a.business_info a.knowledge_files with
    | .error e => .error e
    | .ok kParts =>
      joinPartsPy
        (PyVal.str (headerLine (pyStr company_name)) ::
          (bizDescParts company_name a.business_info ++ sParts ++ kParts
            ++ (qhParts (pyStr company_name)).map PyVal.str
            ++ (crParts (pyStr company_name)).map PyVal.str))

/-- Source lines 139-280, `_build_system_prompt`: returns the base prompt
when the agent object is absent, and falls back to the base prompt when
anything inside the `try` block raises. -/
def _build_system_prompt (base_prompt : String) (agent_obj : Option AgentObj) : String :=
  match agent_obj with
  | Option.none => base_prompt
  | some a =>
    match buildCore a with
    | .ok s => s
    | .error _ => base_prompt

/-- Does `pat` occur at the head of `s`? (character-list level) -/
def listStartsWith : List Char → List Char → Bool
  | _, [] => true
  | [], _ :: _ => false
  | c :: cs, p :: ps => c == p && listStartsWith cs ps

/-- Does `pat` occur anywhere in `s`? (character-list level) -/
def listHasSub : List Char → List Char → Bool
  | [], pat => pat.isEmpty
  | s@(_ :: rest), pat => listStartsWith s pat || listHasSub rest pat

/-- Substring test on strings, used to state which section markers occur in
a composed prompt. -/
def strContainsB (s pat : String) : Bool :=
  listHasSub s.data pat.data

/-- Well-formedness of a `business_info` value: the extracted company name
is a string, and pricing / target-customer values are strings whenever
truthy.  These are exactly the conditions under which composition cannot
raise; every AgentRecord of the specification's data model satisfies
them. -/
def wfBI : PyVal → Bool
  | .dict kvs =>
    isStr (computeCompanyName (.dict kvs))
      && (!pyTruthy (dictGetD kvs "pricing_info" .none)
            || isStr (dictGetD kvs "pricing_info" .none))
      && (!pyTruthy (dictGetD kvs "target_customers" .none)
            || isStr (dictGetD kvs "target_customers" .none))
  | _ => true

/-- A scripted transport response: an HTTP status with a parsed JSON body,
or one of the exception classes caught by the client
(`requests.exceptions.Timeout`, `requests.exceptions.ConnectionError`,
any other `Exception`). -/
inductive TResp where
  | ok (status : Nat) (body : PyVal)
  | timeout
  | connError
  | exn

/-- The JSON payload of `POST /evi/configs` (source lines 61-89). -/
structure CreatePayload where
  name : String
  prompt_text : String
  voice_provider : String
  voice_name : String
  language_code : String
  ellm_provider : String
  ellm_model : String
  allow_short_responses : Bool
  builtin_tools : List (String × Bool)
  description : String

/-- Source lines 61-89: builds the creation payload; the description is the
enhanced prompt truncated to 200 characters with an ellipsis marker when
longer than 200. -/
def buildCreatePayload (name enhanced_prompt voice_name language : String) : CreatePayload :=
  { name := name,
    prompt_text := enhanced_prompt,
    voice_provider := "HUME_AI",
    voice_name := voice_name,
    language_code := language,
    ellm_provider := "HUME_AI",
    ellm_model := "anthropic.claude-3-5-sonnet-20240620-v1:0",
    allow_short_responses := true,
    builtin_tools := [("web_search", true), ("hang_up", true)],
    description :=
      if enhanced_prompt.length > 200 then enhanced_prompt.take 200 ++ "..."
      else enhanced_prompt }

/-- Python `data.get('id')` on the parsed 201 response body
(source lines 107-108); an `AttributeError` when the body is not a dict. -/
def idExtract (body : PyVal) : Except Unit PyVal :=
  match body with
  | .dict kvs => .ok (dictGetD kvs "id" .none)
  | _ => .error ()

/-- A Python optional result: `None` becomes `Option.none`. -/
def pyToOpt (v : PyVal) : Option PyVal :=
  match v with
  | .none => Option.none
  | v => some v

/-- Source lines 35-137, `create_agent`, against a scripted transport:
`responses` are the transport's successive answers and `times` the
successive `datetime.now().strftime('%Y%m%d%H%M%S')` values observed on
409 retries.  Returns the config id (or `none`) together with the list of
request payloads issued, in order.  An exhausted script stands for a
transport that never answered (result `none`). -/
def create_agent (name system_prompt voice_name language : String)
    (agent_obj : Option AgentObj) (responses : List TResp) (times : List String) :
    Option PyVal × List CreatePayload :=
  let enhanced_prompt := _build_system_prompt system_prompt agent_obj
  let payload := buildCreatePayload name enhanced_prompt voice_name language
  match responses with
  | [] => (Option.none, [payload])
  | r :: rest =>
    match r with
    | .ok status body =>
      if status == 201 then
        match idExtract body with
        | .ok v => (pyToOpt v, [payload])
        | .error _ => (Option.none, [payload])
      else if status == 409 then
        let res := create_agent (name ++ "_" ++ times.headD "19700101000000")
          system_prompt voice_name language agent_obj rest times.tail
        (res.1, payload :: res.2)
      else (Option.none, [payload])
    | .timeout => (Option.none, [payload])
    | .connError => (Option.none, [payload])
    | .exn => (Option.none, [payload])

/-- Is this scripted response an HTTP 409? -/
def is409 : TResp → Bool
  | .ok status _ => status == 409
  | _ => false

/-- Python truthiness of an optional-string argument (`if name:` treats
both `None` and the empty string as absent). -/
def optTruthy : Option String → Bool
  | some s => decide (s ≠ "")
  | Option.none => false

/-- One conditionally included field of the PATCH payload
(source lines 305-312). -/
def optField (k : String) (v : Option String) (f : String → PyVal) : List (String × PyVal) :=
  match v with
  | some s => if s ≠ "" then [(k, f s)] else []
  | Option.none => []

/-- Source lines 282-330, `update_agent`, against a scripted transport:
builds the partial payload, returns `false` with no request when it is
empty, otherwise issues one PATCH and returns `true` exactly on
status 200. -/
def update_agent (config_id : String)
    (name system_prompt voice_name language : Option String)
    (responses : List TResp) : Bool × List (List (String × PyVal)) :=
  let payload : List (String × PyVal) :=
    optField "name" name PyVal.str
      ++ optField "prompt" system_prompt (fun t => .dict [("text", .str t)])
      ++ optField "voice" voice_name
          (fun v => .dict [("provider", .str "HUME_AI"), ("name", .str v)])
      ++ optField "language" language (fun c => .dict [("code", .str c)])
  if payload.isEmpty then (false, [])
  else
    match responses with
    | [] => (false, [payload])
    | r :: _ =>
      match r with
      | .ok status _ => (status == 200, [payload])
      | _ => (false, [payload])

lemma pyTruthy_str_true {s : String} (h : s ≠ "") : pyTruthy (.str s) = true :=
  decide_eq_true h

lemma joinParts_cons (s : String) (t : List String) (h : t ≠ []) :
    joinParts (s :: t) = s ++ "\n" ++ joinParts t := by
  cases t with
  | nil => exact absurd rfl h
  | cons a t' => rfl

lemma joinParts_append (xs ys : List String) (hx : xs ≠ []) (hy : ys ≠ []) :
    joinParts (xs ++ ys) = joinParts xs ++ "\n" ++ joinParts ys := by
  induction xs with
  | nil => exact absurd rfl hx
  | cons a t ih =>
    cases t with
    | nil => simpa using joinParts_cons a ys hy
    | cons b t' =>
      rw [List.cons_append, joinParts_cons a ((b :: t') ++ ys) (by simp),
        ih (by simp), joinParts_cons a (b :: t') (by simp)]
      simp [String.append_assoc]

lemma getStrs_map_str (l : List String) : getStrs (l.map PyVal.str) = .ok l := by
  induction l with
  | nil => rfl
  | cons a t ih => simp only [List.map_cons, getStrs, ih]

lemma getStrs_append {l₁ l₂ : List PyVal} {a b : List String}
    (h₁ : getStrs l₁ = .ok a) (h₂ : getStrs l₂ = .ok b) :
    getStrs (l₁ ++ l₂) = .ok (a ++ b) := by
  induction l₁ generalizing a with
  | nil =>
    simp only [getStrs] at h₁
    cases h₁
    simpa using h₂
  | cons v t ih =>
    cases v with
    | str s =>
      revert h₁
      simp only [getStrs, List.cons_append]
      cases hgt : getStrs t with
      | ok ss =>
        intro h₁
        cases h₁
        simp only [List.append_eq] at *
        rw [ih hgt]
        rfl
      | error e =>
        intro h₁
        exact absurd h₁ (by simp)
    | none => simp [getStrs] at h₁
    | list xs => simp [getStrs] at h₁
    | dict kvs => simp [getStrs] at h₁

lemma getStrs_allStr {l : List PyVal} (h : ∀ v ∈ l, isStr v = true) :
    ∃ ss, getStrs l = .ok ss := by
  induction l with
  | nil => exact ⟨[], rfl⟩
  | cons v t ih =>
    obtain ⟨ss, hss⟩ := ih (fun x hx => h x (List.mem_cons_of_mem _ hx))
    have hv := h v (List.mem_cons_self _ _)
    cases v with
    | str s => exact ⟨s :: ss, by simp only [getStrs, hss]⟩
    | none => simp [isStr] at hv
    | list xs => simp [isStr] at hv
    | dict kvs => simp [isStr] at hv

lemma computeCompanyName_isStr {bi : PyVal} (hwf : wfBI bi = true) :
    ∃ c, computeCompanyName bi = .str c := by
  cases bi with
  | dict kvs =>
    simp only [wfBI, Bool.and_eq_true] at hwf
    obtain ⟨⟨h1, _⟩, _⟩ := hwf
    cases hcc : computeCompanyName (.dict kvs) with
    | str c => exact ⟨c, rfl⟩
    | none => rw [hcc] at h1; simp [isStr] at h1
    | list xs => rw [hcc] at h1; simp [isStr] at h1
    | dict kvs' => rw [hcc] at h1; simp [isStr] at h1
  | none => exact ⟨"our company", rfl⟩
  | str s => exact ⟨"our company", rfl⟩
  | list xs => exact ⟨"our company", rfl⟩

lemma bizDescParts_allStr (cn bi : PyVal) : ∀ v ∈ bizDescParts cn bi, isStr v = true := by
  intro v hv
  cases bi with
  | dict kvs =>
    simp only [bizDescParts] at hv
    split at hv
    · split at hv
      · simp only [List.mem_singleton] at hv
        subst hv; rfl
      · simp at hv
    · simp at hv
  | none => simp [bizDescParts] at hv
  | str s => simp [bizDescParts] at hv
  | list xs => simp [bizDescParts] at hv

lemma websiteParts_allStr (kvs : List (String × PyVal)) :
    ∀ v ∈ websiteParts kvs, isStr v = true := by
  intro v hv
  simp only [websiteParts] at hv
  split at hv
  · simp only [List.mem_singleton] at hv; subst hv; rfl
  · simp at hv

lemma industryParts_allStr (kvs : List (String × PyVal)) :
    ∀ v ∈ industryParts kvs, isStr v = true := by
  intro v hv
  simp only [industryParts] at hv
  split at hv
  · simp only [List.mem_singleton] at hv; subst hv; rfl
  · simp at hv

lemma featureParts_allStr (kvs : List (String × PyVal)) :
    ∀ v ∈ featureParts kvs, isStr v = true := by
  intro v hv
  simp only [featureParts] at hv
  split at hv
  · rcases List.mem_cons.mp hv with h | h
    · subst h; rfl
    · split at h
      · obtain ⟨x, _, hx⟩ := List.mem_map.mp h
        subst hx; rfl
      · simp only [List.mem_singleton] at h; subst h; rfl
      · simp at h
  · simp at hv

lemma pricingParts_allStr (kvs : List (String × PyVal))
    (h : (!pyTruthy (dictGetD kvs "pricing_info" .none)
          || isStr (dictGetD kvs "pricing_info" .none)) = true) :
    ∀ v ∈ pricingParts kvs, isStr v = true := by
  intro v hv
  simp only [pricingParts] at hv
  split at hv
  · rcases List.mem_cons.mp hv with h1 | h1
    · subst h1; rfl
    · simp only [List.mem_singleton] at h1
      subst h1
      rename_i ht
      rw [ht] at h
      simpa using h
  · simp at hv

lemma targetParts_allStr (kvs : List (String × PyVal))
    (h : (!pyTruthy (dictGetD kvs "target_customers" .none)
          || isStr (dictGetD kvs "target_customers" .none)) = true) :
    ∀ v ∈ targetParts kvs, isStr v = true := by
  intro v hv
  simp only [targetParts] at hv
  split at hv
  · rcases List.mem_cons.mp hv with h1 | h1
    · subst h1; rfl
    · simp only [List.mem_singleton] at h1
      subst h1
      rename_i ht
      rw [ht] at h
      simpa using h
  · simp at hv

lemma kbBizParts_allStr {bi : PyVal} (hwf : wfBI bi = true) :
    ∀ v ∈ kbBizParts bi, isStr v = true := by
  intro v hv
  cases bi with
  | dict kvs =>
    simp only [wfBI, Bool.and_eq_true] at hwf
    obtain ⟨⟨_, hp⟩, ht⟩ := hwf
    simp only [kbBizParts] at hv
    split at hv
    · simp only [List.mem_append] at hv
      rcases hv with ((((h1 | h1) | h1) | h1) | h1)
      · exact websiteParts_allStr kvs v h1
      · exact industryParts_allStr kvs v h1
      · exact featureParts_allStr kvs v h1
      · exact pricingParts_allStr kvs hp v h1
      · exact targetParts_allStr kvs ht v h1
    · simp at hv
  | none => simp [kbBizParts] at hv
  | str s => simp [kbBizParts] at hv
  | list xs => simp [kbBizParts] at hv

lemma kbFileParts_allStr (kf : PyVal) : ∀ v ∈ kbFileParts kf, isStr v = true := by
  intro v hv
  cases kf with
  | dict kvs =>
    simp only [kbFileParts] at hv
    split at hv
    · obtain ⟨kv, _, hkv⟩ := List.mem_flatMap.mp hv
      simp only [kbFileEntry] at hkv
      split at hkv
      · rcases List.mem_cons.mp hkv with h1 | h1
        · subst h1; rfl
        · simp only [List.mem_singleton] at h1; subst h1; rfl
      · simp at hkv
    · simp at hv
  | none => simp [kbFileParts] at hv
  | str s => simp [kbFileParts] at hv
  | list xs => simp [kbFileParts] at hv

lemma kbSection_ok_allStr (c : String) (bi kf : PyVal) (hwf : wfBI bi = true) :
    ∃ K, kbSection (.str c) bi kf = .ok K ∧ ∀ v ∈ K, isStr v = true := by
  unfold kbSection
  cases hg : (pyTruthy kf || pyTruthy bi) with
  | false => exact ⟨[], by simp, by simp⟩
  | true =>
    refine ⟨[.str ("\n\n" ++ bar), .str (strUpper c ++ " KNOWLEDGE BASE:"), .str bar]
      ++ kbBizParts bi ++ kbFileParts kf, ?_, ?_⟩
    · simp [pyUpper]
    intro v hv
    simp only [List.mem_append, List.mem_cons, List.mem_singleton] at hv
    rcases hv with ((h1 | h1 | h1 | h1) | h1) | h1
    · subst h1; rfl
    · subst h1; rfl
    · subst h1; rfl
    · simp at h1
    · exact kbBizParts_allStr hwf v h1
    · exact kbFileParts_allStr kf v h1

lemma scriptSection_str {S : String} (hS : S ≠ "") :
    scriptSection (.str S) = .ok (scriptPreludeParts.map PyVal.str ++ [.str ("\n" ++ S)]) := by
  have ht : pyTruthy (.str S) = true := pyTruthy_str_true hS
  simp [scriptSection, ht, pyAddStr]

/-- C1: for a present agent object with none of the optional fields set,
`_build_system_prompt` returns exactly the header line (company name
defaulted to "our company") followed by the question-handling block and
the critical-rules block, in that order, and the result has no CALL
SCRIPT banner and no KNOWLEDGE BASE banner. -/
theorem build_prompt_minimal_agent (base : String) (nm : PyVal) :
    _build_system_prompt base (some ⟨nm, .none, .none, .none⟩) =
      joinParts (headerLine "our company" ::
        (qhParts "our company" ++ crParts "our company")) ∧
    strContainsB
      (joinParts (headerLine "our company" ::
        (qhParts "our company" ++ crParts "our company"))) "CALL SCRIPT" = false ∧
    strContainsB
      (joinParts (headerLine "our company" ::
        (qhParts "our company" ++ crParts "our company"))) "KNOWLEDGE BASE" = false :=
  ⟨rfl, by decide, by decide⟩

/-- C2: for every well-formed agent whose `sales_script_text` is a non-empty
string `S`, the composed prompt contains `S` verbatim, and that occurrence
lies after the header line and before the INTELLIGENT QUESTION HANDLING
block. -/
theorem build_prompt_contains_script (base : String) (nm bi kf : PyVal) (S : String)
    (hS : S ≠ "") (hwf : wfBI bi = true) :
    ∃ pre post,
      _build_system_prompt base (some ⟨nm, .str S, bi, kf⟩) = pre ++ S ++ post ∧
      (∃ r, pre = headerLine (pyStr (computeCompanyName bi)) ++ r) ∧
      (∃ x y, post = x ++ "INTELLIGENT QUESTION HANDLING:" ++ y) := by
  obtain ⟨c, hc⟩ := computeCompanyName_isStr hwf
  obtain ⟨K, hK, hKs⟩ := kbSection_ok_allStr c bi kf hwf
  obtain ⟨ks, hks⟩ := getStrs_allStr hKs
  obtain ⟨bds, hbds⟩ := getStrs_allStr (bizDescParts_allStr (.str c) bi)
  have hcore : buildCore ⟨nm, .str S, bi, kf⟩ = joinPartsPy
      (PyVal.str (headerLine c) ::
        (bizDescParts (.str c) bi ++ (scriptPreludeParts.map PyVal.str ++ [.str ("\n" ++ S)])
          ++ K ++ (qhParts c).map PyVal.str ++ (crParts c).map PyVal.str)) := by
    simp only [buildCore, hc]
    rw [scriptSection_str hS]
    simp only [hK, pyStr]
  have hscr1 : getStrs [PyVal.str ("\n" ++ S)] = .ok ["\n" ++ S] := rfl
  have h1 : getStrs (scriptPreludeParts.map PyVal.str ++ [.str ("\n" ++ S)])
      = .ok (scriptPreludeParts ++ ["\n" ++ S]) :=
    getStrs_append (getStrs_map_str _) hscr1
  have h2 := getStrs_append hbds h1
  have h3 := getStrs_append h2 hks
  have h4 := getStrs_append h3 (getStrs_map_str (qhParts c))
  have h5 := getStrs_append h4 (getStrs_map_str (crParts c))
  have hout : _build_system_prompt base (some ⟨nm, .str S, bi, kf⟩)
      = joinParts (headerLine c ::
          (bds ++ (scriptPreludeParts ++ ["\n" ++ S]) ++ ks ++ qhParts c ++ crParts c)) := by
    simp only [_build_system_prompt, hcore, joinPartsPy, getStrs, h5]
  have hre : (headerLine c ::
        (bds ++ (scriptPreludeParts ++ ["\n" ++ S]) ++ ks ++ qhParts c ++ crParts c))
      = (headerLine c :: (bds ++ scriptPreludeParts))
          ++ ("\n" ++ S) :: (ks ++ qhParts c ++ crParts c) := by
    simp [List.append_assoc]
  have hXtail : bds ++ scriptPreludeParts ≠ [] := by simp [scriptPreludeParts]
  have hY : ks ++ qhParts c ++ crParts c ≠ [] := by simp [qhParts, crParts]
  have hsplit1 : joinParts ((headerLine c :: (bds ++ scriptPreludeParts))
        ++ ("\n" ++ S) :: (ks ++ qhParts c ++ crParts c))
      = joinParts (headerLine c :: (bds ++ scriptPreludeParts)) ++ "\n"
          ++ (("\n" ++ S) ++ "\n" ++ joinParts (ks ++ qhParts c ++ crParts c)) := by
    rw [joinParts_append _ _ (by simp) (by simp),
      joinParts_cons ("\n" ++ S) _ hY]
  have hsplit2 : joinParts (headerLine c :: (bds ++ scriptPreludeParts))
      = headerLine c ++ "\n" ++ joinParts (bds ++ scriptPreludeParts) :=
    joinParts_cons _ _ hXtail
  have hYsplit : ks ++ qhParts c ++ crParts c
      = (ks ++ ["\n\n" ++ bar])
          ++ "INTELLIGENT QUESTION HANDLING:" :: ((qhParts c).drop 2 ++ crParts c) := by
    simp [qhParts, List.append_assoc]
  have hsplit3 : joinParts (ks ++ qhParts c ++ crParts c)
      = joinParts (ks ++ ["\n\n" ++ bar]) ++ "\n"
          ++ ("INTELLIGENT QUESTION HANDLING:" ++ "\n"
              ++ joinParts ((qhParts c).drop 2 ++ crParts c)) := by
    rw [hYsplit, joinParts_append _ _ (by simp) (by simp),
      joinParts_cons _ _ (by simp [crParts])]
  refine ⟨headerLine c ++ "\n" ++ joinParts (bds ++ scriptPreludeParts) ++ "\n" ++ "\n",
    "\n" ++ joinParts (ks ++ ["\n\n" ++ bar]) ++ "\n"
      ++ "INTELLIGENT QUESTION HANDLING:" ++ "\n"
      ++ joinParts ((qhParts c).drop 2 ++ crParts c),
    ?_, ?_, ?_⟩
  · rw [hout, hre, hsplit1, hsplit2, hsplit3]
    simp only [String.append_assoc]
  · exact ⟨"\n" ++ joinParts (bds ++ scriptPreludeParts) ++ "\n" ++ "\n",
      by simp [hc, pyStr, String.append_assoc]⟩
  · exact ⟨"\n" ++ joinParts (ks ++ ["\n\n" ++ bar]) ++ "\n",
      "\n" ++ joinParts ((qhParts c).drop 2 ++ crParts c),
      by simp only [String.append_assoc]⟩

/-- Witness for C2 at a concrete well-formed agent. -/
theorem build_prompt_contains_script_witness :
    ∃ pre post,
      _build_system_prompt "Be friendly."
          (some ⟨PyVal.none, .str "SCRIPT BODY",
            .dict [("company_name", .str "Acme")], PyVal.none⟩)
        = pre ++ "SCRIPT BODY" ++ post ∧
      (∃ r, pre = headerLine (pyStr (computeCompanyName
          (.dict [("company_name", .str "Acme")]))) ++ r) ∧
      (∃ x y, post = x ++ "INTELLIGENT QUESTION HANDLING:" ++ y) :=
  build_prompt_contains_script "Be friendly." PyVal.none
    (.dict [("company_name", .str "Acme")]) PyVal.none "SCRIPT BODY"
    (by decide) (by decide)

/-- C4: `_build_system_prompt` never propagates an error — an absent agent
object returns the base prompt unchanged, and any error raised inside the
composition (`buildCore` returning `.error`) is caught and the base
prompt returned unmodified. -/
theorem build_prompt_fallback :
    (∀ base, _build_system_prompt base Option.none = base) ∧
    (∀ base a, buildCore a = .error () → _build_system_prompt base (some a) = base) := by
  refine ⟨fun base => rfl, fun base a h => ?_⟩
  simp [_build_system_prompt, h]

/-- Witness for C4: a malformed agent whose truthy non-string
`sales_script_text` makes composition fail, and the fallback returns the
base prompt. -/
theorem build_prompt_fallback_witness :
    buildCore ⟨PyVal.none, .list [.str "s"], PyVal.none, PyVal.none⟩ = .error () ∧
    _build_system_prompt "BASE"
      (some ⟨PyVal.none, .list [.str "s"], PyVal.none, PyVal.none⟩) = "BASE" :=
  ⟨rfl, build_prompt_fallback.2 "BASE" _ rfl⟩

/-- C5: `_build_system_prompt` is a deterministic pure function of its two
inputs — identical inputs give byte-identical output (the embedding has
no time or randomness dependency). -/
theorem build_prompt_deterministic (b₁ b₂ : String) (a₁ a₂ : Option AgentObj)
    (hb : b₁ = b₂) (ha : a₁ = a₂) :
    _build_system_prompt b₁ a₁ = _build_system_prompt b₂ a₂ := by
  subst hb; subst ha; rfl

/-- Witness for C5 at a concrete input. -/
theorem build_prompt_deterministic_witness :
    _build_system_prompt "Be friendly." Option.none
      = _build_system_prompt "Be friendly." Option.none :=
  build_prompt_deterministic "Be friendly." "Be friendly." Option.none Option.none rfl rfl

/-- C10: every optional section is gated on truthiness, not mere presence —
an empty-string `sales_script_text` composes exactly like an absent one;
empty `business_info` and `knowledge_files` mappings compose exactly like
absent ones; a `knowledge_files` entry with a falsy value contributes
neither label nor value line; and composition still succeeds on such
agents. -/
theorem build_prompt_truthiness_gating :
    (∀ base nm bi kf, _build_system_prompt base (some ⟨nm, .str "", bi, kf⟩)
        = _build_system_prompt base (some ⟨nm, PyVal.none, bi, kf⟩)) ∧
    (∀ base nm s, _build_system_prompt base (some ⟨nm, s, .dict [], .dict []⟩)
        = _build_system_prompt base (some ⟨nm, s, PyVal.none, PyVal.none⟩)) ∧
    (∀ (k : String) (v : PyVal) (rest : List (String × PyVal)), pyTruthy v = false →
        kbFileParts (.dict ((k, v) :: rest)) = kbFileParts (.dict rest)) ∧
    (∀ base nm, ∃ s, buildCore ⟨nm, .str "", .dict [], .dict []⟩ = .ok s ∧
        _build_system_prompt base (some ⟨nm, .str "", .dict [], .dict []⟩) = s) := by
  refine ⟨fun base nm bi kf => rfl, fun base nm s => rfl, ?_, fun base nm => ⟨_, rfl, rfl⟩⟩
  intro k v rest h
  cases rest with
  | nil => simp [kbFileParts, kbFileEntry, h]
  | cons b t =>
    have h2 : pyTruthy (PyVal.dict ((k, v) :: b :: t)) = true := rfl
    have h3 : pyTruthy (PyVal.dict (b :: t)) = true := rfl
    simp [kbFileParts, kbFileEntry, h2, h3, h]

/-- Witness for C10: a falsy-valued knowledge entry is skipped entirely. -/
theorem build_prompt_truthiness_gating_witness :
    kbFileParts (.dict [("secret_notes", PyVal.str ""), ("faq", PyVal.str "call us")])
      = kbFileParts (.dict [("faq", PyVal.str "call us")]) :=
  build_prompt_truthiness_gating.2.2.1 "secret_notes" (PyVal.str "")
    [("faq", PyVal.str "call us")] rfl
lemma map_kv_isEmpty (kfs : List (String × String)) :
    ((kfs.map fun kv => (kv.1, PyVal.str kv.2)).isEmpty) = kfs.isEmpty := by
  cases kfs <;> rfl

lemma kbFileEntry_map_filter (kfs : List (String × String)) :
    ((kfs.map fun kv => (kv.1, PyVal.str kv.2)).flatMap kbFileEntry)
      = kfs.flatMap (fun kv => if kv.2 ≠ "" then
          [PyVal.str ("\n" ++ underscoreToSpace (strUpper kv.1) ++ ":"), PyVal.str kv.2]
        else []) := by
  induction kfs with
  | nil => rfl
  | cons a t ih =>
    by_cases h : a.2 = ""
    · have hf : pyTruthy (PyVal.str "") = false := rfl
      simp [kbFileEntry, hf, h, ih]
    · have ht := pyTruthy_str_true h
      simp [kbFileEntry, ht, h, ih, pyStr]

lemma kbFileParts_map_filter (kfs : List (String × String)) :
    kbFileParts (.dict (kfs.map fun kv => (kv.1, PyVal.str kv.2)))
      = kfs.flatMap (fun kv => if kv.2 ≠ "" then
          [PyVal.str ("\n" ++ underscoreToSpace (strUpper kv.1) ++ ":"), PyVal.str kv.2]
        else []) := by
  cases kfs with
  | nil => rfl
  | cons a t =>
    have hg : pyTruthy (PyVal.dict
        ((a.1, PyVal.str a.2) :: (t.map fun kv => (kv.1, PyVal.str kv.2)))) = true := rfl
    have h1 := kbFileEntry_map_filter (a :: t)
    simp only [List.map_cons] at h1
    simpa [kbFileParts, hg] using h1

lemma kbBizParts_build (w ind pr tc : Option String) (feats : Option PyVal)
    (hw : ∀ s ∈ w, s ≠ "") (hind : ∀ s ∈ ind, s ≠ "") (hpr : ∀ s ∈ pr, s ≠ "")
    (htc : ∀ s ∈ tc, s ≠ "")
    (hfe : ∀ v ∈ feats,
      (∃ xs, v = PyVal.list xs ∧ xs ≠ []) ∨ (∃ s, v = PyVal.str s ∧ s ≠ "")) :
    kbBizParts (.dict ((tc.toList.map fun s => ("target_customers", PyVal.str s))
        ++ (pr.toList.map fun s => ("pricing_info", PyVal.str s))
        ++ (ind.toList.map fun s => ("industry", PyVal.str s))
        ++ (feats.toList.map fun v => ("product_features", v))
        ++ (w.toList.map fun s => ("company_website", PyVal.str s))))
      = (w.toList.map fun s => PyVal.str ("\nWebsite: " ++ s))
        ++ (ind.toList.map fun s => PyVal.str ("Industry: " ++ s))
        ++ (match feats with
            | some (PyVal.list xs) =>
              PyVal.str "\nPRODUCT FEATURES:" :: xs.map (fun x => PyVal.str ("• " ++ pyStr x))
            | some (PyVal.str s) => [PyVal.str "\nPRODUCT FEATURES:", PyVal.str s]
            | _ => [])
        ++ (pr.toList.flatMap fun s => [PyVal.str "\nPRICING:", PyVal.str s])
        ++ (tc.toList.flatMap fun s => [PyVal.str "\nTARGET CUSTOMERS:", PyVal.str s]) := by
  cases feats with
  | none =>
    cases tc <;> cases pr <;> cases ind <;> cases w <;>
      simp_all [kbBizParts, websiteParts, industryParts, featureParts,
        pricingParts, targetParts, dictGetD, pyTruthy, pyStr]
  | some v =>
    rcases hfe v (by simp) with ⟨xs, rfl, hxs⟩ | ⟨s, rfl, hs⟩
    · obtain ⟨x, xs2, rfl⟩ : ∃ x xs2, xs = x :: xs2 := by
        cases xs with
        | nil => exact absurd rfl hxs
        | cons x xs2 => exact ⟨x, xs2, rfl⟩
      cases tc <;> cases pr <;> cases ind <;> cases w <;>
        simp_all [kbBizParts, websiteParts, industryParts, featureParts,
          pricingParts, targetParts, dictGetD, pyTruthy, pyStr]
    · cases tc <;> cases pr <;> cases ind <;> cases w <;>
        simp_all [kbBizParts, websiteParts, industryParts, featureParts,
          pricingParts, targetParts, dictGetD, pyTruthy, pyStr]

/-- C3 (amended): the knowledge-base section is included iff
`knowledge_files` or `business_info` is truthy (non-empty); when included,
its contents appear in the fixed order website, industry, product features
(one bullet per element if the value is a sequence, the text verbatim if
it is a string), pricing info, target customers, then each
`knowledge_files` entry **whose value is non-empty** rendered as an
upper-cased underscore-to-space label followed by the value's text.  The
second part covers every configuration of present/absent business-info
fields (each an optional value), both feature shapes, and arbitrary
string-valued entries (empty-valued ones contribute nothing), with the
input dict keys deliberately scrambled to show the order is fixed by the
composer. -/
theorem knowledge_base_section_amended :
    (∀ (cn : String) (bi kf : PyVal), ∃ l, kbSection (.str cn) bi kf = .ok l ∧
        (l ≠ [] ↔ (pyTruthy kf = true ∨ pyTruthy bi = true))) ∧
    (∀ (cn : String) (w ind pr tc : Option String) (feats : Option PyVal)
        (kfs : List (String × String)),
      (∀ s ∈ w, s ≠ "") → (∀ s ∈ ind, s ≠ "") → (∀ s ∈ pr, s ≠ "") →
      (∀ s ∈ tc, s ≠ "") →
      (∀ v ∈ feats,
        (∃ xs, v = PyVal.list xs ∧ xs ≠ []) ∨ (∃ s, v = PyVal.str s ∧ s ≠ "")) →
      kbSection (.str cn)
        (.dict ((tc.toList.map fun s => ("target_customers", PyVal.str s))
          ++ (pr.toList.map fun s => ("pricing_info", PyVal.str s))
          ++ (ind.toList.map fun s => ("industry", PyVal.str s))
          ++ (feats.toList.map fun v => ("product_features", v))
          ++ (w.toList.map fun s => ("company_website", PyVal.str s))))
        (.dict (kfs.map fun kv => (kv.1, PyVal.str kv.2)))
      = .ok (if (((tc.toList.map fun s => ("target_customers", PyVal.str s))
            ++ (pr.toList.map fun s => ("pricing_info", PyVal.str s))
            ++ (ind.toList.map fun s => ("industry", PyVal.str s))
            ++ (feats.toList.map fun v => ("product_features", v))
            ++ (w.toList.map fun s => ("company_website", PyVal.str s)))).isEmpty && kfs.isEmpty then [] else
          [.str ("\n\n" ++ bar), .str (strUpper cn ++ " KNOWLEDGE BASE:"), .str bar]
          ++ (w.toList.map fun s => PyVal.str ("\nWebsite: " ++ s))
          ++ (ind.toList.map fun s => PyVal.str ("Industry: " ++ s))
          ++ (match feats with
              | some (PyVal.list xs) =>
                PyVal.str "\nPRODUCT FEATURES:" :: xs.map (fun x => PyVal.str ("• " ++ pyStr x))
              | some (PyVal.str s) => [PyVal.str "\nPRODUCT FEATURES:", PyVal.str s]
              | _ => [])
          ++ (pr.toList.flatMap fun s => [PyVal.str "\nPRICING:", PyVal.str s])
          ++ (tc.toList.flatMap fun s => [PyVal.str "\nTARGET CUSTOMERS:", PyVal.str s])
          ++ kfs.flatMap (fun kv => if kv.2 ≠ "" then
          [PyVal.str ("\n" ++ underscoreToSpace (strUpper kv.1) ++ ":"), PyVal.str kv.2]
        else []))) := by
  constructor
  · intro cn bi kf
    by_cases hg : (pyTruthy kf || pyTruthy bi) = true
    · refine ⟨[.str ("\n\n" ++ bar), .str (strUpper cn ++ " KNOWLEDGE BASE:"), .str bar]
          ++ kbBizParts bi ++ kbFileParts kf, ?_, ?_⟩
      · simp [kbSection, hg, pyUpper]
      · exact ⟨fun _ => by simpa using hg, fun _ => by simp⟩
    · have hg2 : (pyTruthy kf || pyTruthy bi) = false := by
        revert hg; cases (pyTruthy kf || pyTruthy bi) <;> simp
      refine ⟨[], by simp [kbSection, hg2], ?_⟩
      constructor
      · intro h; exact absurd rfl h
      · intro h; exfalso; rcases h with h | h <;> simp [h] at hg2
  · intro cn w ind pr tc feats kfs hw hind hpr htc hfe
    have hbiz := kbBizParts_build w ind pr tc feats hw hind hpr htc hfe
    have hkf := kbFileParts_map_filter kfs
    have hgate : (pyTruthy (PyVal.dict (kfs.map fun kv => (kv.1, PyVal.str kv.2)))
        || pyTruthy (PyVal.dict ((tc.toList.map fun s => ("target_customers", PyVal.str s))
            ++ (pr.toList.map fun s => ("pricing_info", PyVal.str s))
            ++ (ind.toList.map fun s => ("industry", PyVal.str s))
            ++ (feats.toList.map fun v => ("product_features", v))
            ++ (w.toList.map fun s => ("company_website", PyVal.str s)))))
        = !((((tc.toList.map fun s => ("target_customers", PyVal.str s))
            ++ (pr.toList.map fun s => ("pricing_info", PyVal.str s))
            ++ (ind.toList.map fun s => ("industry", PyVal.str s))
            ++ (feats.toList.map fun v => ("product_features", v))
            ++ (w.toList.map fun s => ("company_website", PyVal.str s)))).isEmpty && kfs.isEmpty) := by
      have h1 : pyTruthy (PyVal.dict (kfs.map fun kv => (kv.1, PyVal.str kv.2)))
          = !kfs.isEmpty := by
        rw [← map_kv_isEmpty kfs]; rfl
      have h2 : pyTruthy (PyVal.dict ((tc.toList.map fun s => ("target_customers", PyVal.str s))
            ++ (pr.toList.map fun s => ("pricing_info", PyVal.str s))
            ++ (ind.toList.map fun s => ("industry", PyVal.str s))
            ++ (feats.toList.map fun v => ("product_features", v))
            ++ (w.toList.map fun s => ("company_website", PyVal.str s))))
          = !(((tc.toList.map fun s => ("target_customers", PyVal.str s))
            ++ (pr.toList.map fun s => ("pricing_info", PyVal.str s))
            ++ (ind.toList.map fun s => ("industry", PyVal.str s))
            ++ (feats.toList.map fun v => ("product_features", v))
            ++ (w.toList.map fun s => ("company_website", PyVal.str s)))).isEmpty := rfl
      rw [h1, h2]
      exact (by decide : ∀ a b : Bool, (!a || !b) = !(b && a))
        kfs.isEmpty (((tc.toList.map fun s => ("target_customers", PyVal.str s))
            ++ (pr.toList.map fun s => ("pricing_info", PyVal.str s))
            ++ (ind.toList.map fun s => ("industry", PyVal.str s))
            ++ (feats.toList.map fun v => ("product_features", v))
            ++ (w.toList.map fun s => ("company_website", PyVal.str s)))).isEmpty
    simp only [kbSection, hgate, pyUpper]
    cases hcond : ((((tc.toList.map fun s => ("target_customers", PyVal.str s))
            ++ (pr.toList.map fun s => ("pricing_info", PyVal.str s))
            ++ (ind.toList.map fun s => ("industry", PyVal.str s))
            ++ (feats.toList.map fun v => ("product_features", v))
            ++ (w.toList.map fun s => ("company_website", PyVal.str s)))).isEmpty && kfs.isEmpty) with
    | true => simp [hcond]
    | false =>
      simp only [List.append_assoc] at hbiz
      simp [hcond, hbiz, hkf, List.append_assoc]
      cases feats with
      | none => rfl
      | some v => cases v <;> rfl

/-- Witness for C3's amended theorem at concrete inputs: all five
business-info fields present (scrambled key order), list-valued features,
one rendered entry and one empty-valued entry that is skipped. -/
theorem knowledge_base_section_amended_witness :
    (∃ l, kbSection (.str "Acme") PyVal.none PyVal.none = .ok l ∧
        (l ≠ [] ↔ (pyTruthy PyVal.none = true ∨ pyTruthy PyVal.none = true))) ∧
    kbSection (.str "Acme")
        (.dict [("target_customers", .str "SMBs"), ("pricing_info", .str "$5"),
                ("industry", .str "SaaS"), ("product_features", .list [.str "Fast"]),
                ("company_website", .str "acme.com")])
        (.dict [("faq", PyVal.str "Call us"), ("secret_notes", PyVal.str "")]) =
      .ok ([.str ("\n\n" ++ bar), .str (strUpper "Acme" ++ " KNOWLEDGE BASE:"), .str bar]
        ++ [PyVal.str ("\nWebsite: " ++ "acme.com")]
        ++ [PyVal.str ("Industry: " ++ "SaaS")]
        ++ (PyVal.str "\nPRODUCT FEATURES:"
            :: [PyVal.str "Fast"].map (fun x => PyVal.str ("• " ++ pyStr x)))
        ++ [PyVal.str "\nPRICING:", PyVal.str "$5"]
        ++ [PyVal.str "\nTARGET CUSTOMERS:", PyVal.str "SMBs"]
        ++ [("faq", "Call us"), ("secret_notes", "")].flatMap
            (fun kv => if kv.2 ≠ "" then
              [PyVal.str ("\n" ++ underscoreToSpace (strUpper kv.1) ++ ":"),
               PyVal.str kv.2]
            else [])) :=
  ⟨knowledge_base_section_amended.1 "Acme" PyVal.none PyVal.none,
   knowledge_base_section_amended.2 "Acme" (some "acme.com") (some "SaaS")
     (some "$5") (some "SMBs") (some (.list [.str "Fast"]))
     [("faq", "Call us"), ("secret_notes", "")]
     (fun s hs => by cases hs; decide) (fun s hs => by cases hs; decide)
     (fun s hs => by cases hs; decide) (fun s hs => by cases hs; decide)
     (fun v hv => by cases hv; exact Or.inl ⟨[PyVal.str "Fast"], rfl, by simp⟩)⟩


/-- C3 counterexample (to the claim as stated): with
`knowledge_files = {secret_notes: "", faq: "call us"}` the knowledge-base
section is included and the `faq` entry is rendered, but the
`secret_notes` entry — although present — produces no label and no value
line, contradicting "each knowledge_files entry rendered". -/
theorem knowledge_base_entry_counterexample :
    strContainsB (_build_system_prompt "base"
        (some ⟨PyVal.none, PyVal.none, PyVal.none,
          .dict [("secret_notes", PyVal.str ""), ("faq", PyVal.str "call us")]⟩))
      "KNOWLEDGE BASE:" = true ∧
    strContainsB (_build_system_prompt "base"
        (some ⟨PyVal.none, PyVal.none, PyVal.none,
          .dict [("secret_notes", PyVal.str ""), ("faq", PyVal.str "call us")]⟩))
      "FAQ:" = true ∧
    strContainsB (_build_system_prompt "base"
        (some ⟨PyVal.none, PyVal.none, PyVal.none,
          .dict [("secret_notes", PyVal.str ""), ("faq", PyVal.str "call us")]⟩))
      "SECRET NOTES" = false :=
  ⟨by decide, by decide, by decide⟩

/-- C6: `create_agent` returns the identifier from the body's `id` field on
status 201, returns `none` on status 500, and returns `none` (instead of
propagating) on a transport timeout or connection failure. -/
theorem create_agent_status_policy (name sp vn lang : String) (agent : Option AgentObj)
    (ts : List String) :
    (∀ (kvs : List (String × PyVal)) (s : String),
        dictGetD kvs "id" PyVal.none = PyVal.str s → s ≠ "" →
        (create_agent name sp vn lang agent [.ok 201 (.dict kvs)] ts).1
          = some (PyVal.str s)) ∧
    (∀ body, (create_agent name sp vn lang agent [.ok 500 body] ts).1 = Option.none) ∧
    (create_agent name sp vn lang agent [.timeout] ts).1 = Option.none ∧
    (create_agent name sp vn lang agent [.connError] ts).1 = Option.none := by
  refine ⟨?_, ?_, rfl, rfl⟩
  · intro kvs s hid hs
    simp [create_agent, idExtract, hid, pyToOpt]
  · intro body
    simp [create_agent]

/-- Witness for C6 at concrete transport scripts. -/
theorem create_agent_status_policy_witness :
    (create_agent "n" "p" "ITO" "en" Option.none
        [.ok 201 (.dict [("id", PyVal.str "cfg_1")])] []).1 = some (PyVal.str "cfg_1") ∧
    (create_agent "n" "p" "ITO" "en" Option.none [.ok 500 PyVal.none] []).1
      = Option.none ∧
    (create_agent "n" "p" "ITO" "en" Option.none [.timeout] []).1 = Option.none ∧
    (create_agent "n" "p" "ITO" "en" Option.none [.connError] []).1 = Option.none := by
  have h := create_agent_status_policy "n" "p" "ITO" "en" Option.none []
  exact ⟨h.1 [("id", PyVal.str "cfg_1")] "cfg_1" rfl (by decide),
    h.2.1 PyVal.none, h.2.2.1, h.2.2.2⟩

/-- C7: on a 409 first response (and a non-409 second response),
`create_agent` issues exactly one follow-up request; the transport sees
exactly two requests whose names are the original and the original with a
timestamp suffix — never two identical names. -/
theorem create_agent_retry_on_conflict (name sp vn lang : String)
    (agent : Option AgentObj) (body : PyVal) (r2 : TResp) (t : String) (ts : List String)
    (h : is409 r2 = false) :
    (create_agent name sp vn lang agent [.ok 409 body, r2] (t :: ts)).2.map
        CreatePayload.name = [name, name ++ "_" ++ t] ∧
    name ++ "_" ++ t ≠ name := by
  constructor
  · cases r2 with
    | ok status body2 =>
      have h409 : (status == 409) = false := h
      by_cases h201 : (status == 201) = true
      · cases hie : idExtract body2 with
        | ok v => simp [create_agent, h409, h201, hie, buildCreatePayload]
        | error e => simp [create_agent, h409, h201, hie, buildCreatePayload]
      · have h201f : (status == 201) = false := by
          revert h201; cases (status == 201) <;> simp
        simp [create_agent, h409, h201f, buildCreatePayload]
    | timeout => simp [create_agent, buildCreatePayload]
    | connError => simp [create_agent, buildCreatePayload]
    | exn => simp [create_agent, buildCreatePayload]
  · intro he
    have hlen := congrArg String.length he
    have h1 : ("_" : String).length = 1 := rfl
    simp [String.length_append, h1] at hlen
    omega

/-- Witness for C7: a 409 then a 201 yields two requests with distinct
names. -/
theorem create_agent_retry_on_conflict_witness :
    (create_agent "bob" "p" "ITO" "en" Option.none
        [.ok 409 PyVal.none, .ok 201 (.dict [("id", PyVal.str "x")])]
        ["20250102030405"]).2.map CreatePayload.name
      = ["bob", "bob" ++ "_" ++ "20250102030405"] ∧
    "bob" ++ "_" ++ "20250102030405" ≠ "bob" :=
  create_agent_retry_on_conflict "bob" "p" "ITO" "en" Option.none PyVal.none
    (.ok 201 (.dict [("id", PyVal.str "x")])) "20250102030405" [] (by decide)

lemma create_agent_first_request (name sp vn lang : String) (agent : Option AgentObj)
    (responses : List TResp) (ts : List String) :
    ∃ rest, (create_agent name sp vn lang agent responses ts).2
      = buildCreatePayload name (_build_system_prompt sp agent) vn lang :: rest := by
  cases responses with
  | nil => exact ⟨[], rfl⟩
  | cons r rest' =>
    cases r with
    | ok status body =>
      by_cases h201 : (status == 201) = true
      · cases hie : idExtract body with
        | ok v => exact ⟨[], by simp [create_agent, h201, hie]⟩
        | error e => exact ⟨[], by simp [create_agent, h201, hie]⟩
      · have h201f : (status == 201) = false := by
          revert h201; cases (status == 201) <;> simp
        by_cases h409 : (status == 409) = true
        · refine ⟨(create_agent (name ++ "_" ++ ts.headD "19700101000000")
              sp vn lang agent rest' ts.tail).2, ?_⟩
          simp [create_agent, h201f, h409]
        · have h409f : (status == 409) = false := by
            revert h409; cases (status == 409) <;> simp
          exact ⟨[], by simp [create_agent, h201f, h409f]⟩
    | timeout => exact ⟨[], rfl⟩
    | connError => exact ⟨[], rfl⟩
    | exn => exact ⟨[], rfl⟩

/-- C8: the description field of the creation payload is the full enhanced
prompt when its length is at most 200 characters, and its first 200
characters followed by "..." when longer. -/
theorem create_agent_description_truncation (name sp vn lang : String)
    (agent : Option AgentObj) (responses : List TResp) (ts : List String) :
    ∃ rest, (create_agent name sp vn lang agent responses ts).2
        = buildCreatePayload name (_build_system_prompt sp agent) vn lang :: rest ∧
      ((_build_system_prompt sp agent).length ≤ 200 →
        (buildCreatePayload name (_build_system_prompt sp agent) vn lang).description
          = _build_system_prompt sp agent) ∧
      ((_build_system_prompt sp agent).length > 200 →
        (buildCreatePayload name (_build_system_prompt sp agent) vn lang).description
          = (_build_system_prompt sp agent).take 200 ++ "...") := by
  obtain ⟨rest, hr⟩ := create_agent_first_request name sp vn lang agent responses ts
  refine ⟨rest, hr, fun hle => ?_, fun hgt => ?_⟩
  · simp [buildCreatePayload, Nat.not_lt.mpr hle]
  · simp [buildCreatePayload, hgt]

/-- Witness for C8: a short prompt is kept whole, a 250-character prompt is
truncated to 200 characters plus the ellipsis marker. -/
theorem create_agent_description_truncation_witness :
    ((_build_system_prompt "Hi" Option.none).length ≤ 200 ∧
      (buildCreatePayload "a" (_build_system_prompt "Hi" Option.none) "ITO" "en").description
        = _build_system_prompt "Hi" Option.none) ∧
    ((_build_system_prompt "XXXXXXXXXXXXXXXXXXXXXXXXXXXXXXXXXXXXXXXXXXXXXXXXXXXXXXXXXXXXXXXXXXXXXXXXXXXXXXXXXXXXXXXXXXXXXXXXXXXXXXXXXXXXXXXXXXXXXXXXXXXXXXXXXXXXXXXXXXXXXXXXXXXXXXXXXXXXXXXXXXXXXXXXXXXXXXXXXXXXXXXXXXXXXXXXXXXXXXXXXXXXXXXXXXXXXXXXXXXXXXXXXXXXXXXXXXXXXXXXXXXXXXXXXX" Option.none).length > 200 ∧
      (buildCreatePayload "a" (_build_system_prompt "XXXXXXXXXXXXXXXXXXXXXXXXXXXXXXXXXXXXXXXXXXXXXXXXXXXXXXXXXXXXXXXXXXXXXXXXXXXXXXXXXXXXXXXXXXXXXXXXXXXXXXXXXXXXXXXXXXXXXXXXXXXXXXXXXXXXXXXXXXXXXXXXXXXXXXXXXXXXXXXXXXXXXXXXXXXXXXXXXXXXXXXXXXXXXXXXXXXXXXXXXXXXXXXXXXXXXXXXXXXXXXXXXXXXXXXXXXXXXXXXXXXXXXXXXX" Option.none) "ITO" "en").description
        = (_build_system_prompt "XXXXXXXXXXXXXXXXXXXXXXXXXXXXXXXXXXXXXXXXXXXXXXXXXXXXXXXXXXXXXXXXXXXXXXXXXXXXXXXXXXXXXXXXXXXXXXXXXXXXXXXXXXXXXXXXXXXXXXXXXXXXXXXXXXXXXXXXXXXXXXXXXXXXXXXXXXXXXXXXXXXXXXXXXXXXXXXXXXXXXXXXXXXXXXXXXXXXXXXXXXXXXXXXXXXXXXXXXXXXXXXXXXXXXXXXXXXXXXXXXXXXXXXXXX" Option.none).take 200 ++ "...") := by
  obtain ⟨r1, hq1, hshort, _⟩ := create_agent_description_truncation "a" "Hi" "ITO" "en"
    Option.none [] []
  obtain ⟨r2, hq2, _, hlong⟩ := create_agent_description_truncation "a" "XXXXXXXXXXXXXXXXXXXXXXXXXXXXXXXXXXXXXXXXXXXXXXXXXXXXXXXXXXXXXXXXXXXXXXXXXXXXXXXXXXXXXXXXXXXXXXXXXXXXXXXXXXXXXXXXXXXXXXXXXXXXXXXXXXXXXXXXXXXXXXXXXXXXXXXXXXXXXXXXXXXXXXXXXXXXXXXXXXXXXXXXXXXXXXXXXXXXXXXXXXXXXXXXXXXXXXXXXXXXXXXXXXXXXXXXXXXXXXXXXXXXXXXXXX" "ITO" "en"
    Option.none [] []
  exact ⟨⟨by decide, hshort (by decide)⟩, ⟨by decide, hlong (by decide)⟩⟩

/-- C9: `update_agent` with none of the optional fields supplied returns
`false` and issues zero HTTP requests. -/
theorem update_agent_no_fields (config_id : String) (responses : List TResp) :
    update_agent config_id Option.none Option.none Option.none Option.none responses
      = (false, []) := rfl
